import Mathlib

/-!
Shallow embedding of the placeholder / content-item storage core of
django-fluent-contents (`fluent_contents/models/db.py`), together with
theorems checking its natural-language specification.

Conventions of the embedding:
* Database rows become Lean structures; the stored database becomes an
  explicit `DB` value (a list of placeholder rows and content-item rows
  plus the auto-increment counter for content items).
* Django's nullable columns become `Option` fields.  Primary keys are
  `Nat`; a content item that was never saved has `id = none`.
* The shared cache store is the set of currently present keys, a
  `List String`; `cache.delete(key)` removes a key and is a no-op on a
  miss, exactly like Django's cache API.
* The external plugin registry is a parameter
  `plugin : String → ContentItem → List String` standing for
  `item.plugin.get_output_cache_keys(slot, item)`.
* The external world of parent (owner) entities is a parameter
  `resolveOwner : Nat → Nat → Option Owner` standing for generic
  foreign-key resolution; a dangling reference yields `none`, like
  Django's `GenericForeignKey` which swallows `ObjectDoesNotExist`.
* Python truthiness on primary keys (`if not self.pk`, `if not
  self.parent_id`) is modelled by `truthyId`: both `None` and `0` are
  falsy.
* Mutating methods return the new `DB` / cache state; methods that also
  invoke cache invalidation additionally return the list of item ids for
  which `clear_cache` ran, so "invalidation fired exactly once per item"
  is a statement about that list.
-/

/-- Language codes, e.g. "en", "fr"; the db column default is `""`. -/
abbrev Lang := String

/-- An external parent (owner) entity, seen through the only two members
this core ever accesses on it: its resolved language (absent when the
object exposes none) and its `get_absolute_url` result (absent when the
attribute is missing, i.e. accessing it raises `AttributeError`). -/
structure Owner where
  language : Option Lang
  url : Option String
deriving Repr, DecidableEq

/-- Row of the `Placeholder` model: `slot`, `role`, the generic parent
reference `(parent_type_id, parent_id)` (both nullable, as the
placeholder may be created before its parent is saved), and `title`. -/
structure Placeholder where
  id : Nat
  slot : String
  role : Char
  parent_type_id : Option Nat
  parent_id : Option Nat
  title : String
deriving Repr, DecidableEq

/-- Row of the polymorphic `ContentItem` base model: the generic parent
reference (`parent_type` is a non-null foreign key, `parent_id` is
nullable), the `language_code` (db default `""`), the nullable
`placeholder` foreign key (`on_delete=SET_NULL`), the `sort_order`, and
the polymorphic concrete-type discriminator `polymorphic_ctype_id`.
`id` is `none` for a record that was never saved. -/
structure ContentItem where
  id : Option Nat
  parent_type_id : Nat
  parent_id : Option Nat
  language_code : Lang
  placeholder_id : Option Nat
  sort_order : Int
  polymorphic_ctype_id : Nat
deriving Repr, DecidableEq

/-- The stored database: placeholder rows, content-item rows and the
auto-increment counter handing out fresh content-item primary keys. -/
structure DB where
  placeholders : List Placeholder
  items : List ContentItem
  nextItemId : Nat
deriving Repr, DecidableEq

/-- The shared cache store, observed as the set of keys currently
present. -/
abbrev CacheState := List String

/-- Cache backend `cache.delete(key)`: removes the key; deleting an
absent key is a no-op, never an error. -/
def cacheDelete (s : CacheState) (k : String) : CacheState :=
  s.filter (fun x => x ≠ k)

/-- Python truthiness of a nullable primary-key value: `None` and `0`
are falsy, every other integer is truthy. -/
def truthyId : Option Nat → Bool
  | none => false
  | some n => n ≠ 0

/-- Look up a placeholder row by primary key. -/
def lookupPlaceholder (db : DB) (pid : Nat) : Option Placeholder :=
  db.placeholders.find? (fun p => p.id = pid)

namespace Placeholder

/-- Items whose `placeholder` foreign key points at this placeholder:
the reverse relation `self.contentitems.all()`. -/
def linkedItems (db : DB) (ph : Placeholder) : List ContentItem :=
  db.items.filter (fun x => x.placeholder_id = some ph.id)

end Placeholder

/-- Does an item's stored generic parent reference match the
placeholder's stored parent reference?  Mirrors
`filter(parent_type_id=self.parent_type_id, parent_id=self.parent_id)`:
Django turns `field=None` into an `IS NULL` lookup, so two `NULL`s
match, and the item's non-null `parent_type_id` never matches a `NULL`
placeholder `parent_type_id`. -/
def sameParentRef (ph : Placeholder) (x : ContentItem) : Bool :=
  some x.parent_type_id = ph.parent_type_id ∧ x.parent_id = ph.parent_id

/-- A concrete parent object as passed to the query surface: its content
type, its primary key, and its resolved language code (`none` when the
object cannot resolve a language), as after `set_current_language`. -/
structure ParentRef where
  type_id : Nat
  obj_id : Nat
  language : Option Lang
deriving Repr, DecidableEq

/-- Modelled from the spec: the `parent(parent_object,
limit_parent_language)` queryset filter of `ContentItemManager`, whose
source (`fluent_contents/models/managers.py`) is not part of this
repository snapshot.  Per §4.2 it re-derives membership by matching
`(ownerTypeTag, ownerId)` independently of the stored placeholder link,
and when `limitToOwnerLanguage` is set it additionally constrains the
results to the owner's resolved language. -/
def parentQuerysetFilter (qs : List ContentItem) (parent : ParentRef)
    (limit_parent_language : Bool) : List ContentItem :=
  let qs := qs.filter (fun x =>
    x.parent_type_id = parent.type_id ∧ x.parent_id = some parent.obj_id)
  if limit_parent_language then
    match parent.language with
    | some l => qs.filter (fun x => x.language_code = l)
    | none => qs
  else qs

namespace Placeholder

/-- The method `Placeholder.get_content_items(parent=None,
limit_parent_language=True)`: starts from the items linked to this
placeholder; with an explicit `parent` it delegates to the
`parent(...)` queryset filter, otherwise it filters by this
placeholder's own stored parent reference. -/
def get_content_items (db : DB) (ph : Placeholder)
    (parent : Option ParentRef) (limit_parent_language : Bool) :
    List ContentItem :=
  let item_qs := ph.linkedItems db
  match parent with
  | some p => parentQuerysetFilter item_qs p limit_parent_language
  | none => item_qs.filter (sameParentRef ph)

/-- The method `Placeholder.get_absolute_url`: `None` when either
parent-reference column is falsy, otherwise the parent's
`get_absolute_url()` with `AttributeError` (missing parent object or
missing attribute) degrading to `None`. -/
def get_absolute_url (resolveOwner : Nat → Nat → Option Owner)
    (ph : Placeholder) : Option String :=
  if ¬ truthyId ph.parent_id ∨ ¬ truthyId ph.parent_type_id then none
  else
    match ph.parent_type_id, ph.parent_id with
    | some t, some i =>
      match resolveOwner t i with
      | some o => o.url
      | none => none
    | _, _ => none

/-- The method `Placeholder.delete`: first bulk-update every linked
content item's `placeholder` foreign key to `NULL` (the South 0.7.4
workaround for `on_delete=SET_NULL`), then remove the placeholder row
itself. -/
def delete (db : DB) (ph : Placeholder) : DB :=
  let detached := db.items.map (fun x =>
    if x.placeholder_id = some ph.id then { x with placeholder_id := none }
    else x)
  { db with
    items := detached
    placeholders := db.placeholders.filter (fun p => p.id ≠ ph.id) }

end Placeholder

namespace ContentItem

/-- The method `ContentItem.get_cache_keys`: an item without a
placeholder association yields `[]` without consulting the plugin;
otherwise the plugin is asked for
`get_output_cache_keys(placeholder.slot, item)`.  The inner `none`
branch (a dangling placeholder foreign key) is unreachable under
referential integrity, where Django's attribute access would raise. -/
def get_cache_keys (plugin : String → ContentItem → List String)
    (db : DB) (item : ContentItem) : List String :=
  match item.placeholder_id with
  | none => []
  | some pid =>
    match lookupPlaceholder db pid with
    | some ph => plugin ph.slot item
    | none => []

/-- The method `ContentItem.clear_cache`: delete every computed cache
key from the shared cache store. -/
def clear_cache (plugin : String → ContentItem → List String)
    (db : DB) (item : ContentItem) (s : CacheState) : CacheState :=
  (get_cache_keys plugin db item).foldl cacheDelete s

/-- The method `ContentItem.get_absolute_url`: resolve `self.parent`
through the generic foreign key (a dangling or unset reference resolves
to `None`), then return its `get_absolute_url()` with `AttributeError`
degrading to `None`. -/
def get_absolute_url (resolveOwner : Nat → Nat → Option Owner)
    (item : ContentItem) : Option String :=
  let parent :=
    match item.parent_id with
    | none => none
    | some pid => resolveOwner item.parent_type_id pid
  match parent with
  | some o => o.url
  | none => none

end ContentItem

/-- Modelled from the spec: `get_parent_language_code(parent)` from the
missing `fluent_contents/models/managers.py`.  Per §4.1/§4.2 it returns
the owner's resolved language and degrades to "absent" (never raises)
when the owner reference is unset, the owner is missing, or the owner
resolves no language. -/
def get_parent_language_code (resolveOwner : Nat → Nat → Option Owner)
    (ptype : Nat) (pid : Option Nat) : Option Lang :=
  match pid with
  | none => none
  | some i =>
    match resolveOwner ptype i with
    | some o => o.language
    | none => none

/-- Python's `x or y` on an optional string: `None` and `""` are falsy
and fall through to the default. -/
def orDefault (x : Option Lang) (dflt : Lang) : Lang :=
  match x with
  | some l => if l = "" then dflt else l
  | none => dflt

/-- Writing one content-item row, as the ORM `super().save()` does:
a record without a primary key is inserted under a fresh id, a record
with a primary key overwrites the row carrying that id.  Returns the
updated database together with the saved (id-carrying) record. -/
def dbSaveItem (db : DB) (item : ContentItem) : DB × ContentItem :=
  match item.id with
  | none =>
    let saved := { item with id := some db.nextItemId }
    ({ db with items := db.items ++ [saved], nextItemId := db.nextItemId + 1 },
     saved)
  | some i =>
    ({ db with items := db.items.map (fun x => if x.id = some i then item else x) },
     item)

/-- Result of a mutating content-item operation: the new database, the
new cache state, the in-memory record after the operation, and the ids
of the items for which `clear_cache` was invoked (one entry per
invocation). -/
structure MutationResult where
  db : DB
  cache : CacheState
  item : ContentItem
  invalidated : List Nat
deriving Repr, DecidableEq

namespace ContentItem

/-- The method `ContentItem.save`: first the language fallback (when
`language_code` is falsy, refill it from the parent's language or from
`FLUENT_CONTENTS_DEFAULT_LANGUAGE_CODE`), then remember
`is_new = not self.pk`, write the row, and only when the record was not
new invoke `clear_cache` after the write. -/
def save (plugin : String → ContentItem → List String)
    (resolveOwner : Nat → Nat → Option Owner) (defaultLang : Lang)
    (db : DB) (cache : CacheState) (item : ContentItem) : MutationResult :=
  let item :=
    if item.language_code = "" then
      { item with language_code :=
          orDefault (get_parent_language_code resolveOwner item.parent_type_id
            item.parent_id) defaultLang }
    else item
  let is_new := ¬ truthyId item.id
  let (db, saved) := dbSaveItem db item
  if is_new then
    { db := db, cache := cache, item := saved, invalidated := [] }
  else
    { db := db, cache := clear_cache plugin db saved cache, item := saved,
      invalidated := [saved.id.getD 0] }

/-- The method `ContentItem.delete`: remove the row, then invoke
`clear_cache` — the in-memory record still carries its pre-delete
placeholder association, and the placeholder rows are untouched. -/
def delete (plugin : String → ContentItem → List String)
    (db : DB) (cache : CacheState) (item : ContentItem) : MutationResult :=
  let db := { db with items := db.items.filter (fun x => x.id ≠ item.id) }
  { db := db, cache := clear_cache plugin db item cache, item := item,
    invalidated := [item.id.getD 0] }

end ContentItem

/-- Modelled from the spec: the manager query
`ContentItem.objects.parent(parent_object, limit_parent_language=True)`
used by the translation-delete reactor — every stored content item
whose owner matches and, language limiting being on, whose language is
the owner's current one (`fluent_contents/models/managers.py` is not in
this repository snapshot). -/
def itemsOfParent (db : DB) (parent : ParentRef) : List ContentItem :=
  parentQuerysetFilter db.items parent true

/-- One step of the reactor's loop: delete this item (running the full
cache-invalidation path) and append its invalidation record. -/
def reactorStep (plugin : String → ContentItem → List String)
    (acc : DB × CacheState × List Nat) (item : ContentItem) :
    DB × CacheState × List Nat :=
  let r := ContentItem.delete plugin acc.1 acc.2.1 item
  (r.db, r.cache, acc.2.2 ++ r.invalidated)

/-- The signal handler `on_delete_model_translation`: the deleted
translation names a parent object and a language; the parent is put in
that language (`set_current_language`), then every content item of that
parent in that language is deleted individually, each deletion running
the full cache-invalidation path. -/
def on_delete_model_translation (plugin : String → ContentItem → List String)
    (db : DB) (cache : CacheState) (master : ParentRef) (lang : Lang) :
    DB × CacheState × List Nat :=
  let parent_object : ParentRef := { master with language := some lang }
  (itemsOfParent db parent_object).foldl (reactorStep plugin) (db, cache, [])

/-- The content items the translation-delete reactor is after: stored
owner reference matching the parent and language equal to the deleted
translation's. -/
def translationVictim (parent : ParentRef) (lang : Lang) (x : ContentItem) : Bool :=
  x.parent_type_id = parent.type_id ∧ x.parent_id = some parent.obj_id
    ∧ x.language_code = lang

/-- Folding `cacheDelete` over a list of keys removes exactly those
keys from the store. -/
theorem foldl_cacheDelete (ks : List String) :
    ∀ s : CacheState, ks.foldl cacheDelete s
      = s.filter (fun x => decide (x ∉ ks)) := by
  induction ks with
  | nil => intro s; simp
  | cons k ks ih =>
    intro s
    simp only [List.foldl_cons, ih, cacheDelete]
    rw [List.filter_filter]
    apply List.filter_congr
    intro a _
    simp only [List.mem_cons, not_or, ne_eq, Bool.decide_and]
    exact Bool.and_comm _ _

/-- Closed form of `clear_cache`: the end state keeps exactly the keys
outside the item's computed key set. -/
theorem clear_cache_eq (plugin : String → ContentItem → List String)
    (db : DB) (item : ContentItem) (s : CacheState) :
    ContentItem.clear_cache plugin db item s
      = s.filter (fun x => decide (x ∉ ContentItem.get_cache_keys plugin db item)) := by
  simp [ContentItem.clear_cache, foldl_cacheDelete]

/-- C6: cache invalidation is idempotent — invalidating a content item
twice in a row gives the same cache state as invalidating it once,
invalidating it when its keys are already absent leaves the state
unchanged, and after any invalidation every key of the item's computed
key set is absent from the cache store. -/
theorem claim_C6 (plugin : String → ContentItem → List String)
    (db : DB) (item : ContentItem) (s : CacheState) :
    ContentItem.clear_cache plugin db item (ContentItem.clear_cache plugin db item s)
        = ContentItem.clear_cache plugin db item s
    ∧ (∀ k ∈ ContentItem.get_cache_keys plugin db item,
        k ∉ ContentItem.clear_cache plugin db item s)
    ∧ ((∀ k ∈ ContentItem.get_cache_keys plugin db item, k ∉ s) →
        ContentItem.clear_cache plugin db item s = s) := by
  refine ⟨?_, ?_, ?_⟩
  · simp only [clear_cache_eq, List.filter_filter]
    apply List.filter_congr
    intro a _
    simp
  · intro k hk
    rw [clear_cache_eq]
    intro hmem
    have := List.of_mem_filter hmem
    simp only [decide_eq_true_eq] at this
    exact this hk
  · intro hcold
    rw [clear_cache_eq]
    apply List.filter_eq_self.mpr
    intro a ha
    simp only [decide_eq_true_eq]
    intro hk
    exact hcold a hk ha

/-- C6 witness: a concrete item, plugin and warm cache exercising the
idempotence statement. -/
theorem claim_C6_witness :
    (∀ k ∈ ContentItem.get_cache_keys (fun slot _ => [slot ++ ".html"])
        (DB.mk [Placeholder.mk 1 "main" 'm' (some 7) (some 3) ""]
          [ContentItem.mk (some 10) 7 (some 3) "en" (some 1) 1 40] 11)
        (ContentItem.mk (some 10) 7 (some 3) "en" (some 1) 1 40),
      k ∉ ContentItem.clear_cache (fun slot _ => [slot ++ ".html"])
        (DB.mk [Placeholder.mk 1 "main" 'm' (some 7) (some 3) ""]
          [ContentItem.mk (some 10) 7 (some 3) "en" (some 1) 1 40] 11)
        (ContentItem.mk (some 10) 7 (some 3) "en" (some 1) 1 40)
        ["main.html", "other"]) :=
  (claim_C6 (fun slot _ => [slot ++ ".html"])
    (DB.mk [Placeholder.mk 1 "main" 'm' (some 7) (some 3) ""]
      [ContentItem.mk (some 10) 7 (some 3) "en" (some 1) 1 40] 11)
    (ContentItem.mk (some 10) 7 (some 3) "en" (some 1) 1 40)
    ["main.html", "other"]).2.1

/-- C7: an item without a placeholder association yields an empty
cache-key set as a normal result, the same for every plugin registry
(the plugin handler is never consulted); an item whose placeholder
foreign key resolves to a placeholder row delegates to the plugin
handler with the placeholder's slot and the item. -/
theorem claim_C7 (plugin : String → ContentItem → List String)
    (db : DB) (item : ContentItem) :
    (item.placeholder_id = none →
      ∀ plugin2 : String → ContentItem → List String,
        ContentItem.get_cache_keys plugin2 db item = [])
    ∧ (∀ pid ph, item.placeholder_id = some pid →
        lookupPlaceholder db pid = some ph →
        ContentItem.get_cache_keys plugin db item = plugin ph.slot item) := by
  constructor
  · intro hnone plugin2
    simp [ContentItem.get_cache_keys, hnone]
  · intro pid ph hpid hph
    simp [ContentItem.get_cache_keys, hpid, hph]

/-- C7 witness: a detached item yields `[]`, and an attached item
yields the plugin's keys for the slot "main". -/
theorem claim_C7_witness :
    ContentItem.get_cache_keys (fun slot _ => [slot ++ ".key"])
        (DB.mk [Placeholder.mk 1 "main" 'm' (some 7) (some 3) ""]
          [] 11)
        (ContentItem.mk (some 10) 7 (some 3) "en" none 1 40) = []
    ∧ ContentItem.get_cache_keys (fun slot _ => [slot ++ ".key"])
        (DB.mk [Placeholder.mk 1 "main" 'm' (some 7) (some 3) ""]
          [] 11)
        (ContentItem.mk (some 10) 7 (some 3) "en" (some 1) 1 40)
      = ["main.key"] :=
  ⟨(claim_C7 (fun slot _ => [slot ++ ".key"])
      (DB.mk [Placeholder.mk 1 "main" 'm' (some 7) (some 3) ""] [] 11)
      (ContentItem.mk (some 10) 7 (some 3) "en" none 1 40)).1 rfl _,
   (claim_C7 (fun slot _ => [slot ++ ".key"])
      (DB.mk [Placeholder.mk 1 "main" 'm' (some 7) (some 3) ""] [] 11)
      (ContentItem.mk (some 10) 7 (some 3) "en" (some 1) 1 40)).2 1
      (Placeholder.mk 1 "main" 'm' (some 7) (some 3) "") rfl (by decide)⟩

/-- C8: URL resolution is total (the Lean functions are) and returns
the owner's canonical URL exactly when the owner resolves and exposes
one; an unset owner reference, a missing owner, or an owner without a
URL each yield `none`, for the placeholder's method and the content
item's method alike. -/
theorem claim_C8 (resolveOwner : Nat → Nat → Option Owner)
    (ph : Placeholder) (item : ContentItem) :
    ((¬ truthyId ph.parent_id ∨ ¬ truthyId ph.parent_type_id) →
      Placeholder.get_absolute_url resolveOwner ph = none)
    ∧ (∀ t i, ph.parent_type_id = some t → ph.parent_id = some i →
        resolveOwner t i = none →
        Placeholder.get_absolute_url resolveOwner ph = none)
    ∧ (∀ t i o, t ≠ 0 → i ≠ 0 →
        ph.parent_type_id = some t → ph.parent_id = some i →
        resolveOwner t i = some o →
        Placeholder.get_absolute_url resolveOwner ph = o.url)
    ∧ (item.parent_id = none →
        ContentItem.get_absolute_url resolveOwner item = none)
    ∧ (∀ pid, item.parent_id = some pid →
        resolveOwner item.parent_type_id pid = none →
        ContentItem.get_absolute_url resolveOwner item = none)
    ∧ (∀ pid o, item.parent_id = some pid →
        resolveOwner item.parent_type_id pid = some o →
        ContentItem.get_absolute_url resolveOwner item = o.url) := by
  refine ⟨?_, ?_, ?_, ?_, ?_, ?_⟩
  · intro h
    unfold Placeholder.get_absolute_url
    rw [if_pos h]
  · intro t i ht hi hro
    unfold Placeholder.get_absolute_url
    by_cases h : ¬ truthyId ph.parent_id ∨ ¬ truthyId ph.parent_type_id
    · rw [if_pos h]
    · rw [if_neg h]
      simp [ht, hi, hro]
  · intro t i o htz hiz ht hi hro
    unfold Placeholder.get_absolute_url
    rw [if_neg]
    · simp [ht, hi, hro]
    · simp [ht, hi, truthyId, htz, hiz]
  · intro h
    simp [ContentItem.get_absolute_url, h]
  · intro pid hpid hro
    simp [ContentItem.get_absolute_url, hpid, hro]
  · intro pid o hpid hro
    simp [ContentItem.get_absolute_url, hpid, hro]

/-- C8 witness: a placeholder whose owner resolves to an entity with
URL "/page/" yields that URL; a content item with a dangling owner
reference yields `none`. -/
theorem claim_C8_witness :
    Placeholder.get_absolute_url
        (fun t i => if t = 7 ∧ i = 3 then some (Owner.mk (some "fr") (some "/page/")) else none)
        (Placeholder.mk 1 "main" 'm' (some 7) (some 3) "") = some "/page/"
    ∧ ContentItem.get_absolute_url
        (fun t i => if t = 7 ∧ i = 3 then some (Owner.mk (some "fr") (some "/page/")) else none)
        (ContentItem.mk (some 10) 7 (some 99) "en" (some 1) 1 40) = none :=
  ⟨((claim_C8
      (fun t i => if t = 7 ∧ i = 3 then some (Owner.mk (some "fr") (some "/page/")) else none)
      (Placeholder.mk 1 "main" 'm' (some 7) (some 3) "")
      (ContentItem.mk (some 10) 7 (some 99) "en" (some 1) 1 40)).2.2.1
      7 3 (Owner.mk (some "fr") (some "/page/"))
      (by decide) (by decide) rfl rfl (by decide)),
   ((claim_C8
      (fun t i => if t = 7 ∧ i = 3 then some (Owner.mk (some "fr") (some "/page/")) else none)
      (Placeholder.mk 1 "main" 'm' (some 7) (some 3) "")
      (ContentItem.mk (some 10) 7 (some 99) "en" (some 1) 1 40)).2.2.2.2.1
      99 rfl (by decide))⟩

/-- C2: deleting a placeholder removes its row and detaches (never
deletes) its content items — every item keeps a persisted row with the
same fields except that a link to the deleted placeholder becomes
`none`; items not linked to it are untouched, the item count is
preserved, and other placeholder rows survive. -/
theorem claim_C2 (db : DB) (ph : Placeholder) :
    (Placeholder.delete db ph).items.length = db.items.length
    ∧ (∀ x ∈ db.items, x.placeholder_id = some ph.id →
        { x with placeholder_id := none } ∈ (Placeholder.delete db ph).items)
    ∧ (∀ x ∈ db.items, x.placeholder_id ≠ some ph.id →
        x ∈ (Placeholder.delete db ph).items)
    ∧ (∀ p ∈ (Placeholder.delete db ph).placeholders, p.id ≠ ph.id)
    ∧ (∀ p ∈ db.placeholders, p.id ≠ ph.id →
        p ∈ (Placeholder.delete db ph).placeholders) := by
  refine ⟨?_, ?_, ?_, ?_, ?_⟩
  · simp [Placeholder.delete]
  · intro x hx hlink
    simp only [Placeholder.delete, List.mem_map]
    exact ⟨x, hx, by rw [if_pos hlink]⟩
  · intro x hx hlink
    simp only [Placeholder.delete, List.mem_map]
    exact ⟨x, hx, by rw [if_neg hlink]⟩
  · intro p hp
    simp only [Placeholder.delete, List.mem_filter] at hp
    simpa using hp.2
  · intro p hp hne
    simp only [Placeholder.delete, List.mem_filter]
    exact ⟨hp, by simpa using hne⟩

/-- C2 witness: deleting placeholder 1 leaves its two items persisted
with a cleared link, leaves the foreign item untouched, and removes
only placeholder 1's row. -/
theorem claim_C2_witness :
    ContentItem.mk (some 10) 7 (some 3) "en" none 1 40
        ∈ (Placeholder.delete
            (DB.mk [Placeholder.mk 1 "main" 'm' (some 7) (some 3) "",
                    Placeholder.mk 2 "side" 's' (some 7) (some 3) ""]
              [ContentItem.mk (some 10) 7 (some 3) "en" (some 1) 1 40,
               ContentItem.mk (some 11) 7 (some 3) "en" (some 2) 2 40] 12)
            (Placeholder.mk 1 "main" 'm' (some 7) (some 3) "")).items
    ∧ ContentItem.mk (some 11) 7 (some 3) "en" (some 2) 2 40
        ∈ (Placeholder.delete
            (DB.mk [Placeholder.mk 1 "main" 'm' (some 7) (some 3) "",
                    Placeholder.mk 2 "side" 's' (some 7) (some 3) ""]
              [ContentItem.mk (some 10) 7 (some 3) "en" (some 1) 1 40,
               ContentItem.mk (some 11) 7 (some 3) "en" (some 2) 2 40] 12)
            (Placeholder.mk 1 "main" 'm' (some 7) (some 3) "")).items :=
  ⟨(claim_C2
      (DB.mk [Placeholder.mk 1 "main" 'm' (some 7) (some 3) "",
              Placeholder.mk 2 "side" 's' (some 7) (some 3) ""]
        [ContentItem.mk (some 10) 7 (some 3) "en" (some 1) 1 40,
         ContentItem.mk (some 11) 7 (some 3) "en" (some 2) 2 40] 12)
      (Placeholder.mk 1 "main" 'm' (some 7) (some 3) "")).2.1
      (ContentItem.mk (some 10) 7 (some 3) "en" (some 1) 1 40)
      (by decide) rfl,
   (claim_C2
      (DB.mk [Placeholder.mk 1 "main" 'm' (some 7) (some 3) "",
              Placeholder.mk 2 "side" 's' (some 7) (some 3) ""]
        [ContentItem.mk (some 10) 7 (some 3) "en" (some 1) 1 40,
         ContentItem.mk (some 11) 7 (some 3) "en" (some 2) 2 40] 12)
      (Placeholder.mk 1 "main" 'm' (some 7) (some 3) "")).2.2.1
      (ContentItem.mk (some 11) 7 (some 3) "en" (some 2) 2 40)
      (by decide) (by decide)⟩

/-- C9: in the unfiltered query mode, an item is returned exactly when
it is stored, linked to this placeholder and carries the placeholder's
own stored parent reference; an item linked to the placeholder whose
parent reference differs is excluded even though no explicit owner
filter was passed. -/
theorem claim_C9 (db : DB) (ph : Placeholder) (b : Bool) (x : ContentItem) :
    x ∈ Placeholder.get_content_items db ph none b ↔
      (x ∈ db.items ∧ x.placeholder_id = some ph.id
        ∧ some x.parent_type_id = ph.parent_type_id
        ∧ x.parent_id = ph.parent_id) := by
  simp only [Placeholder.get_content_items, Placeholder.linkedItems, sameParentRef,
    List.mem_filter, decide_eq_true_eq, Bool.and_eq_true, and_assoc]

/-- C9 witness: an item linked to placeholder 1 but stored with a
different parent id is not returned by the unfiltered query, while the
correctly referenced item is. -/
theorem claim_C9_witness :
    (ContentItem.mk (some 11) 7 (some 999) "en" (some 1) 2 40
        ∉ Placeholder.get_content_items
            (DB.mk [Placeholder.mk 1 "main" 'm' (some 7) (some 3) ""]
              [ContentItem.mk (some 10) 7 (some 3) "en" (some 1) 1 40,
               ContentItem.mk (some 11) 7 (some 999) "en" (some 1) 2 40] 12)
            (Placeholder.mk 1 "main" 'm' (some 7) (some 3) "") none true)
    ∧ ContentItem.mk (some 10) 7 (some 3) "en" (some 1) 1 40
        ∈ Placeholder.get_content_items
            (DB.mk [Placeholder.mk 1 "main" 'm' (some 7) (some 3) ""]
              [ContentItem.mk (some 10) 7 (some 3) "en" (some 1) 1 40,
               ContentItem.mk (some 11) 7 (some 999) "en" (some 1) 2 40] 12)
            (Placeholder.mk 1 "main" 'm' (some 7) (some 3) "") none true :=
  ⟨fun hmem =>
    absurd ((claim_C9
        (DB.mk [Placeholder.mk 1 "main" 'm' (some 7) (some 3) ""]
          [ContentItem.mk (some 10) 7 (some 3) "en" (some 1) 1 40,
           ContentItem.mk (some 11) 7 (some 999) "en" (some 1) 2 40] 12)
        (Placeholder.mk 1 "main" 'm' (some 7) (some 3) "") true
        (ContentItem.mk (some 11) 7 (some 999) "en" (some 1) 2 40)).mp hmem)
      (by decide),
   (claim_C9
      (DB.mk [Placeholder.mk 1 "main" 'm' (some 7) (some 3) ""]
        [ContentItem.mk (some 10) 7 (some 3) "en" (some 1) 1 40,
         ContentItem.mk (some 11) 7 (some 999) "en" (some 1) 2 40] 12)
      (Placeholder.mk 1 "main" 'm' (some 7) (some 3) "") true
      (ContentItem.mk (some 10) 7 (some 3) "en" (some 1) 1 40)).mpr
    (by decide)⟩

/-- C4: under an uncorrupted store — the placeholder's stored parent
reference is its true owner `O` and every item linked to the
placeholder carries `O`'s type tag and id — the unfiltered query and
the query filtered by `O` with language limiting off return the same
items (hence the same item ids). -/
theorem claim_C4 (db : DB) (ph : Placeholder) (O : ParentRef) (b : Bool)
    (h1 : ph.parent_type_id = some O.type_id)
    (h2 : ph.parent_id = some O.obj_id)
    (h3 : ∀ x ∈ db.items, x.placeholder_id = some ph.id →
        x.parent_type_id = O.type_id ∧ x.parent_id = some O.obj_id) :
    Placeholder.get_content_items db ph none b
      = Placeholder.get_content_items db ph (some O) false := by
  have hlinked : ∀ x ∈ ph.linkedItems db,
      x.parent_type_id = O.type_id ∧ x.parent_id = some O.obj_id := by
    intro x hx
    rw [Placeholder.linkedItems, List.mem_filter] at hx
    exact h3 x hx.1 (by simpa using hx.2)
  have hunf : Placeholder.get_content_items db ph none b = ph.linkedItems db := by
    simp only [Placeholder.get_content_items]
    apply List.filter_eq_self.mpr
    intro x hx
    have := hlinked x hx
    simp [sameParentRef, h1, h2, this.1, this.2]
  have hfil : Placeholder.get_content_items db ph (some O) false
      = ph.linkedItems db := by
    simp only [Placeholder.get_content_items, parentQuerysetFilter, if_neg]
    apply List.filter_eq_self.mpr
    intro x hx
    have := hlinked x hx
    simp [this.1, this.2]
  rw [hunf, hfil]

/-- C4 witness: a two-item store owned by entity (7, 3): the unfiltered
and owner-filtered queries coincide. -/
theorem claim_C4_witness :
    Placeholder.get_content_items
        (DB.mk [Placeholder.mk 1 "main" 'm' (some 7) (some 3) ""]
          [ContentItem.mk (some 10) 7 (some 3) "en" (some 1) 1 40,
           ContentItem.mk (some 11) 7 (some 3) "fr" (some 1) 2 40] 12)
        (Placeholder.mk 1 "main" 'm' (some 7) (some 3) "") none true
      = Placeholder.get_content_items
        (DB.mk [Placeholder.mk 1 "main" 'm' (some 7) (some 3) ""]
          [ContentItem.mk (some 10) 7 (some 3) "en" (some 1) 1 40,
           ContentItem.mk (some 11) 7 (some 3) "fr" (some 1) 2 40] 12)
        (Placeholder.mk 1 "main" 'm' (some 7) (some 3) "")
        (some (ParentRef.mk 7 3 (some "en"))) false :=
  claim_C4
    (DB.mk [Placeholder.mk 1 "main" 'm' (some 7) (some 3) ""]
      [ContentItem.mk (some 10) 7 (some 3) "en" (some 1) 1 40,
       ContentItem.mk (some 11) 7 (some 3) "fr" (some 1) 2 40] 12)
    (Placeholder.mk 1 "main" 'm' (some 7) (some 3) "")
    (ParentRef.mk 7 3 (some "en")) true rfl rfl (by decide)

/-- Python's `x or default` never yields the empty string when the
default is non-empty. -/
theorem orDefault_ne_empty (x : Option Lang) (d : Lang) (hd : d ≠ "") :
    orDefault x d ≠ "" := by
  cases x with
  | none => simpa [orDefault] using hd
  | some l =>
    by_cases hl : l = "" <;> simp [orDefault, hl, hd]

/-- The record coming out of `save` carries the original language when
it was set, and the owner-or-default fallback when it was empty. -/
theorem save_item_language (plugin : String → ContentItem → List String)
    (resolveOwner : Nat → Nat → Option Owner) (defaultLang : Lang)
    (db : DB) (cache : CacheState) (item : ContentItem) :
    (ContentItem.save plugin resolveOwner defaultLang db cache item).item.language_code
      = if item.language_code = "" then
          orDefault (get_parent_language_code resolveOwner item.parent_type_id
            item.parent_id) defaultLang
        else item.language_code := by
  obtain ⟨iid, pt, pid, lc, phid, so, ct⟩ := item
  by_cases hlang : lc = "" <;>
    cases iid <;>
      simp [ContentItem.save, dbSaveItem, truthyId, hlang] <;>
        split <;> simp_all [dbSaveItem]

/-- A record saved without a primary key ends up inserted in the
database. -/
theorem save_new_persisted (plugin : String → ContentItem → List String)
    (resolveOwner : Nat → Nat → Option Owner) (defaultLang : Lang)
    (db : DB) (cache : CacheState) (item : ContentItem)
    (hid : item.id = none) :
    (ContentItem.save plugin resolveOwner defaultLang db cache item).item
      ∈ (ContentItem.save plugin resolveOwner defaultLang db cache item).db.items := by
  obtain ⟨iid, pt, pid, lc, phid, so, ct⟩ := item
  cases hid
  by_cases hlang : lc = "" <;>
    simp [ContentItem.save, dbSaveItem, truthyId, hlang]

/-- C1: saving a record that has no primary key yet performs no cache
invalidation and leaves the cache store untouched; saving an existing
record (a truthy primary key) invokes `clear_cache` exactly once, on
the cache as reached after the underlying write (i.e. against the
post-write database and the written record). -/
theorem claim_C1 (plugin : String → ContentItem → List String)
    (resolveOwner : Nat → Nat → Option Owner) (defaultLang : Lang)
    (db : DB) (cache : CacheState) (item : ContentItem) :
    (item.id = none →
      (ContentItem.save plugin resolveOwner defaultLang db cache item).invalidated = []
      ∧ (ContentItem.save plugin resolveOwner defaultLang db cache item).cache = cache)
    ∧ (∀ i, i ≠ 0 → item.id = some i →
      (ContentItem.save plugin resolveOwner defaultLang db cache item).invalidated = [i]
      ∧ (ContentItem.save plugin resolveOwner defaultLang db cache item).cache
        = ContentItem.clear_cache plugin
            (ContentItem.save plugin resolveOwner defaultLang db cache item).db
            (ContentItem.save plugin resolveOwner defaultLang db cache item).item
            cache) := by
  obtain ⟨iid, pt, pid, lc, phid, so, ct⟩ := item
  constructor
  · intro hid
    cases hid
    by_cases hlang : lc = "" <;>
      simp [ContentItem.save, dbSaveItem, truthyId, hlang]
  · intro i hi hid
    cases hid
    by_cases hlang : lc = "" <;>
      simp [ContentItem.save, dbSaveItem, truthyId, hlang, hi]

/-- C1 witness: creating a fresh record leaves a warmed cache intact
and fires no invalidation; updating record 10 fires exactly one
invalidation. -/
theorem claim_C1_witness :
    ((ContentItem.save (fun slot _ => [slot ++ ".html"]) (fun _ _ => none) "en"
        (DB.mk [Placeholder.mk 1 "main" 'm' (some 7) (some 3) ""] [] 10)
        ["main.html"]
        (ContentItem.mk none 7 (some 3) "en" (some 1) 1 40)).invalidated = []
      ∧ (ContentItem.save (fun slot _ => [slot ++ ".html"]) (fun _ _ => none) "en"
        (DB.mk [Placeholder.mk 1 "main" 'm' (some 7) (some 3) ""] [] 10)
        ["main.html"]
        (ContentItem.mk none 7 (some 3) "en" (some 1) 1 40)).cache = ["main.html"])
    ∧ (ContentItem.save (fun slot _ => [slot ++ ".html"]) (fun _ _ => none) "en"
        (DB.mk [Placeholder.mk 1 "main" 'm' (some 7) (some 3) ""]
          [ContentItem.mk (some 10) 7 (some 3) "en" (some 1) 1 40] 11)
        ["main.html"]
        (ContentItem.mk (some 10) 7 (some 3) "en" (some 1) 1 40)).invalidated = [10] :=
  ⟨(claim_C1 (fun slot _ => [slot ++ ".html"]) (fun _ _ => none) "en"
      (DB.mk [Placeholder.mk 1 "main" 'm' (some 7) (some 3) ""] [] 10)
      ["main.html"]
      (ContentItem.mk none 7 (some 3) "en" (some 1) 1 40)).1 rfl,
   ((claim_C1 (fun slot _ => [slot ++ ".html"]) (fun _ _ => none) "en"
      (DB.mk [Placeholder.mk 1 "main" 'm' (some 7) (some 3) ""]
        [ContentItem.mk (some 10) 7 (some 3) "en" (some 1) 1 40] 11)
      ["main.html"]
      (ContentItem.mk (some 10) 7 (some 3) "en" (some 1) 1 40)).2 10
      (by decide) rfl).1⟩

/-- C3: saving a content item whose language tag is empty persists the
owner's resolved language when the owner resolves a (non-empty) one,
and the configured global default otherwise; an empty tag is never
persisted, and a failed owner resolution still leaves the record
saved. -/
theorem claim_C3 (plugin : String → ContentItem → List String)
    (resolveOwner : Nat → Nat → Option Owner) (defaultLang : Lang)
    (db : DB) (cache : CacheState) (item : ContentItem)
    (hlang : item.language_code = "") (hdef : defaultLang ≠ "") :
    (∀ l, l ≠ "" →
      get_parent_language_code resolveOwner item.parent_type_id item.parent_id = some l →
      (ContentItem.save plugin resolveOwner defaultLang db cache item).item.language_code = l)
    ∧ (get_parent_language_code resolveOwner item.parent_type_id item.parent_id = none →
      (ContentItem.save plugin resolveOwner defaultLang db cache item).item.language_code
        = defaultLang)
    ∧ (ContentItem.save plugin resolveOwner defaultLang db cache item).item.language_code ≠ ""
    ∧ (item.id = none →
      (ContentItem.save plugin resolveOwner defaultLang db cache item).item
        ∈ (ContentItem.save plugin resolveOwner defaultLang db cache item).db.items) := by
  have hl := save_item_language plugin resolveOwner defaultLang db cache item
  rw [if_pos hlang] at hl
  refine ⟨?_, ?_, ?_, ?_⟩
  · intro l hlne hres
    rw [hl, hres]
    simp [orDefault, hlne]
  · intro hres
    rw [hl, hres]
    simp [orDefault]
  · rw [hl]
    exact orDefault_ne_empty _ _ hdef
  · exact save_new_persisted plugin resolveOwner defaultLang db cache item

/-- C3 witness: with an owner resolving to "fr" the saved item carries
"fr"; with an absent owner it carries the default "en" and was still
inserted. -/
theorem claim_C3_witness :
    (ContentItem.save (fun _ _ => []) (fun t i => if t = 7 ∧ i = 3 then some (Owner.mk (some "fr") none) else none) "en"
        (DB.mk [] [] 10) []
        (ContentItem.mk none 7 (some 3) "" (some 1) 1 40)).item.language_code = "fr"
    ∧ (ContentItem.save (fun _ _ => []) (fun _ _ => none) "en"
        (DB.mk [] [] 10) []
        (ContentItem.mk none 7 (some 3) "" (some 1) 1 40)).item.language_code = "en"
    ∧ (ContentItem.save (fun _ _ => []) (fun _ _ => none) "en"
        (DB.mk [] [] 10) []
        (ContentItem.mk none 7 (some 3) "" (some 1) 1 40)).item
      ∈ (ContentItem.save (fun _ _ => []) (fun _ _ => none) "en"
        (DB.mk [] [] 10) []
        (ContentItem.mk none 7 (some 3) "" (some 1) 1 40)).db.items :=
  ⟨(claim_C3 (fun _ _ => []) (fun t i => if t = 7 ∧ i = 3 then some (Owner.mk (some "fr") none) else none) "en"
      (DB.mk [] [] 10) [] (ContentItem.mk none 7 (some 3) "" (some 1) 1 40)
      rfl (by decide)).1 "fr" (by decide) (by decide),
   ((claim_C3 (fun _ _ => []) (fun _ _ => none) "en"
      (DB.mk [] [] 10) [] (ContentItem.mk none 7 (some 3) "" (some 1) 1 40)
      rfl (by decide)).2.1 rfl),
   ((claim_C3 (fun _ _ => []) (fun _ _ => none) "en"
      (DB.mk [] [] 10) [] (ContentItem.mk none 7 (some 3) "" (some 1) 1 40)
      rfl (by decide)).2.2.2 rfl)⟩

/-- C10: the language fallback runs on every save, creations and
updates alike — whenever the incoming record's language tag is empty it
is refilled from the owner's language or the global default, otherwise
it is kept; with a non-empty configured default, no successful save
ever leaves an empty persisted language tag. -/
theorem claim_C10 (plugin : String → ContentItem → List String)
    (resolveOwner : Nat → Nat → Option Owner) (defaultLang : Lang)
    (db : DB) (cache : CacheState) (item : ContentItem)
    (hdef : defaultLang ≠ "") :
    (ContentItem.save plugin resolveOwner defaultLang db cache item).item.language_code ≠ ""
    ∧ (item.language_code = "" →
      (ContentItem.save plugin resolveOwner defaultLang db cache item).item.language_code
        = orDefault (get_parent_language_code resolveOwner item.parent_type_id
            item.parent_id) defaultLang)
    ∧ (item.language_code ≠ "" →
      (ContentItem.save plugin resolveOwner defaultLang db cache item).item.language_code
        = item.language_code) := by
  have hl := save_item_language plugin resolveOwner defaultLang db cache item
  by_cases hlang : item.language_code = ""
  · rw [if_pos hlang] at hl
    exact ⟨hl ▸ orDefault_ne_empty _ _ hdef, fun _ => hl, fun h => absurd hlang h⟩
  · rw [if_neg hlang] at hl
    exact ⟨hl ▸ hlang, fun h => absurd h hlang, fun _ => hl⟩

/-- C10 witness: an update (record 10) that blanked its language tag is
refilled to the default "en" on save. -/
theorem claim_C10_witness :
    (ContentItem.save (fun _ _ => []) (fun _ _ => none) "en"
        (DB.mk [] [ContentItem.mk (some 10) 7 (some 3) "fr" (some 1) 1 40] 11) []
        (ContentItem.mk (some 10) 7 (some 3) "" (some 1) 1 40)).item.language_code
      = orDefault (get_parent_language_code (fun _ _ => none) 7 (some 3)) "en" :=
  (claim_C10 (fun _ _ => []) (fun _ _ => none) "en"
    (DB.mk [] [ContentItem.mk (some 10) 7 (some 3) "fr" (some 1) 1 40] 11) []
    (ContentItem.mk (some 10) 7 (some 3) "" (some 1) 1 40) (by decide)).2.1 rfl

/-- The reactor's enumeration is exactly the victim filter: owner match
plus language match. -/
theorem itemsOfParent_filter (db : DB) (master : ParentRef) (lang : Lang) :
    itemsOfParent db { master with language := some lang }
      = db.items.filter (translationVictim master lang) := by
  simp only [itemsOfParent, parentQuerysetFilter]
  rw [List.filter_filter]
  apply List.filter_congr
  intro x _
  simp only [translationVictim, ← Bool.decide_and]
  rw [decide_eq_decide]
  tauto

/-- Closed form of the reactor's deletion loop: placeholders are
untouched, the surviving items are those whose id collides with no
deleted item, and the invalidation log grows by one entry per deleted
item, in order. -/
theorem reactor_fold (plugin : String → ContentItem → List String)
    (vs : List ContentItem) :
    ∀ (db : DB) (cache : CacheState) (inv : List Nat),
      (vs.foldl (reactorStep plugin) (db, cache, inv)).1.placeholders = db.placeholders
      ∧ (vs.foldl (reactorStep plugin) (db, cache, inv)).1.items
          = db.items.filter (fun x => vs.all (fun v => x.id ≠ v.id))
      ∧ (vs.foldl (reactorStep plugin) (db, cache, inv)).2.2
          = inv ++ vs.map (fun v => v.id.getD 0) := by
  induction vs with
  | nil => intro db cache inv; simp
  | cons v vs ih =>
    intro db cache inv
    simp only [List.foldl_cons]
    have hstep : reactorStep plugin (db, cache, inv) v
        = ({ db with items := db.items.filter (fun x => x.id ≠ v.id) },
           ContentItem.clear_cache plugin
             { db with items := db.items.filter (fun x => x.id ≠ v.id) } v cache,
           inv ++ [v.id.getD 0]) := rfl
    rw [hstep]
    obtain ⟨ihp, ihi, ihv⟩ := ih
      { db with items := db.items.filter (fun x => x.id ≠ v.id) }
      (ContentItem.clear_cache plugin
        { db with items := db.items.filter (fun x => x.id ≠ v.id) } v cache)
      (inv ++ [v.id.getD 0])
    refine ⟨ihp, ?_, ?_⟩
    · rw [ihi]
      simp only [List.filter_filter]
      apply List.filter_congr
      intro x _
      simp only [List.all_cons, Bool.and_comm]
    · rw [ihv]
      simp

/-- C5: handling the translation-delete signal for parent `master` and
language `lang` (given distinct stored primary keys) leaves every
placeholder row untouched, removes exactly the content items whose
stored owner matches the parent and whose language equals `lang`, and
runs the cache-invalidation path exactly once per removed item. -/
theorem claim_C5 (plugin : String → ContentItem → List String)
    (db : DB) (cache : CacheState) (master : ParentRef) (lang : Lang)
    (hinj : ∀ x ∈ db.items, ∀ y ∈ db.items, x.id = y.id → x = y) :
    (on_delete_model_translation plugin db cache master lang).1.placeholders
        = db.placeholders
    ∧ (on_delete_model_translation plugin db cache master lang).1.items
        = db.items.filter (fun x => ! translationVictim master lang x)
    ∧ (on_delete_model_translation plugin db cache master lang).2.2
        = (db.items.filter (translationVictim master lang)).map
            (fun v => v.id.getD 0) := by
  have hon : on_delete_model_translation plugin db cache master lang
      = (itemsOfParent db { master with language := some lang }).foldl
          (reactorStep plugin) (db, cache, []) := rfl
  obtain ⟨hp, hi, hv⟩ := reactor_fold plugin
    (itemsOfParent db { master with language := some lang }) db cache []
  refine ⟨hon ▸ hp, ?_, ?_⟩
  · rw [hon, hi, itemsOfParent_filter]
    apply List.filter_congr
    intro x hx
    cases hvx : translationVictim master lang x with
    | true =>
      have hxvs : x ∈ db.items.filter (translationVictim master lang) :=
        List.mem_filter.mpr ⟨hx, hvx⟩
      simp only [Bool.not_true]
      rw [List.all_eq_false]
      exact ⟨x, hxvs, by simp⟩
    | false =>
      simp only [Bool.not_false]
      rw [List.all_eq_true]
      intro v hv'
      have hvmem := List.mem_filter.mp hv'
      simp only [decide_eq_true_eq]
      intro heq
      have hxv := hinj x hx v hvmem.1 heq
      rw [← hxv] at hvmem
      rw [hvmem.2] at hvx
      cases hvx
  · rw [hon, hv, itemsOfParent_filter]
    simp

/-- C5 witness: parent (7, 3) with "en" and "fr" items across two
placeholders — deleting the "fr" translation keeps both placeholders
and the "en" items, and logs one invalidation per removed "fr" item. -/
theorem claim_C5_witness :
    (on_delete_model_translation (fun slot _ => [slot])
        (DB.mk [Placeholder.mk 1 "main" 'm' (some 7) (some 3) "",
                Placeholder.mk 2 "side" 's' (some 7) (some 3) ""]
          [ContentItem.mk (some 10) 7 (some 3) "en" (some 1) 1 40,
           ContentItem.mk (some 11) 7 (some 3) "fr" (some 1) 1 40,
           ContentItem.mk (some 12) 7 (some 3) "en" (some 2) 1 40,
           ContentItem.mk (some 13) 7 (some 3) "fr" (some 2) 1 40] 14)
        [] (ParentRef.mk 7 3 (some "en")) "fr").1.placeholders
      = [Placeholder.mk 1 "main" 'm' (some 7) (some 3) "",
         Placeholder.mk 2 "side" 's' (some 7) (some 3) ""]
    ∧ (on_delete_model_translation (fun slot _ => [slot])
        (DB.mk [Placeholder.mk 1 "main" 'm' (some 7) (some 3) "",
                Placeholder.mk 2 "side" 's' (some 7) (some 3) ""]
          [ContentItem.mk (some 10) 7 (some 3) "en" (some 1) 1 40,
           ContentItem.mk (some 11) 7 (some 3) "fr" (some 1) 1 40,
           ContentItem.mk (some 12) 7 (some 3) "en" (some 2) 1 40,
           ContentItem.mk (some 13) 7 (some 3) "fr" (some 2) 1 40] 14)
        [] (ParentRef.mk 7 3 (some "en")) "fr").1.items
      = [ContentItem.mk (some 10) 7 (some 3) "en" (some 1) 1 40,
         ContentItem.mk (some 12) 7 (some 3) "en" (some 2) 1 40]
    ∧ (on_delete_model_translation (fun slot _ => [slot])
        (DB.mk [Placeholder.mk 1 "main" 'm' (some 7) (some 3) "",
                Placeholder.mk 2 "side" 's' (some 7) (some 3) ""]
          [ContentItem.mk (some 10) 7 (some 3) "en" (some 1) 1 40,
           ContentItem.mk (some 11) 7 (some 3) "fr" (some 1) 1 40,
           ContentItem.mk (some 12) 7 (some 3) "en" (some 2) 1 40,
           ContentItem.mk (some 13) 7 (some 3) "fr" (some 2) 1 40] 14)
        [] (ParentRef.mk 7 3 (some "en")) "fr").2.2 = [11, 13] := by
  have h := claim_C5 (fun slot _ => [slot])
    (DB.mk [Placeholder.mk 1 "main" 'm' (some 7) (some 3) "",
            Placeholder.mk 2 "side" 's' (some 7) (some 3) ""]
      [ContentItem.mk (some 10) 7 (some 3) "en" (some 1) 1 40,
       ContentItem.mk (some 11) 7 (some 3) "fr" (some 1) 1 40,
       ContentItem.mk (some 12) 7 (some 3) "en" (some 2) 1 40,
       ContentItem.mk (some 13) 7 (some 3) "fr" (some 2) 1 40] 14)
    [] (ParentRef.mk 7 3 (some "en")) "fr" (by decide)
  exact ⟨h.1, h.2.1.trans (by decide), h.2.2.trans (by decide)⟩
